import Mathlib

/-
Verification of the chirp-stt recording/transcription core against its
specification.  Each definition is a shallow embedding of a function or
class from the Python sources (src/chirp); the module and line numbers
are given in the doc comments.  Times and durations are modelled as
rationals (Python floats carry no rounding-relevant arithmetic here),
Python dicts as association lists, and the dynamically-typed config
values as an explicit value type.
-/

set_option maxRecDepth 4000

/-- A Python value of the shapes the configuration code passes around
(config_manager.py).  Numeric rendering of floats is schematic (no
theorem relies on it). -/
inductive PyVal where
  | none
  | str (s : String)
  | int (n : Int)
  | float (q : Rat)
  | bool (b : Bool)
  | dict (entries : List (String × PyVal))

/-- Python str.lower for the ASCII strings the config code handles. -/
def lowerString (s : String) : String :=
  String.mk (s.data.map Char.toLower)

/-- Python str() on the value shapes reaching it in config_manager.py.
Composite and float rendering is schematic; no theorem depends on it. -/
def pyStr : PyVal → String
  | PyVal.none => "None"
  | PyVal.str s => s
  | PyVal.int n => toString n
  | PyVal.float q => toString q
  | PyVal.bool b => if b then "True" else "False"
  | PyVal.dict _ => "dict"

/-- Python str(v).lower(). -/
def pyStrLower (v : PyVal) : String := lowerString (pyStr v)

/-- Python truthiness for the value shapes above. -/
def pyTruthy : PyVal → Bool
  | PyVal.none => false
  | PyVal.str s => !(s == "")
  | PyVal.int n => !(n == 0)
  | PyVal.float q => !(q == 0)
  | PyVal.bool b => b
  | PyVal.dict d => !d.isEmpty

/-- Python dict lookup d.get(k). -/
def dictLookup (d : List (String × PyVal)) (k : String) : Option PyVal :=
  (d.find? (fun p => p.1 == k)).map (fun p => p.2)

/-- Python dict union a | b: keys of a keep their order with values from
b winning; keys only in b are appended in order. -/
def dictMerge (a b : List (String × PyVal)) : List (String × PyVal) :=
  (a.map (fun p => (p.1, (dictLookup b p.1).getD p.2)))
    ++ b.filter (fun p => (dictLookup a p.1).isNone)

/-- Python dict item assignment d[k] = v. -/
def dictSet (d : List (String × PyVal)) (k : String) (v : PyVal) :
    List (String × PyVal) :=
  if (dictLookup d k).isSome then
    d.map (fun p => if p.1 == k then (p.1, v) else p)
  else d ++ [(k, v)]

/-- ChirpConfig (config_manager.py lines 18-34): a slots dataclass, so
exactly these fifteen attributes exist on an instance; values are
dynamically typed. -/
structure ChirpConfig where
  primary_shortcut : PyVal
  stt_backend : PyVal
  parakeet_model : PyVal
  parakeet_quantization : PyVal
  onnx_providers : PyVal
  threads : PyVal
  language : PyVal
  word_overrides : PyVal
  whisper_prompt : PyVal
  paste_mode : PyVal
  clipboard_behavior : PyVal
  clipboard_clear_delay : PyVal
  audio_feedback : PyVal
  start_sound_path : PyVal
  stop_sound_path : PyVal

/-- The field (slot) names declared on ChirpConfig
(config_manager.py lines 20-34). -/
def chirpConfigFields : List String :=
  ["primary_shortcut", "stt_backend", "parakeet_model",
   "parakeet_quantization", "onnx_providers", "threads", "language",
   "word_overrides", "whisper_prompt", "paste_mode",
   "clipboard_behavior", "clipboard_clear_delay", "audio_feedback",
   "start_sound_path", "stop_sound_path"]

/-- The dataclass field defaults (config_manager.py lines 20-34). -/
def chirpConfigDataclassDefaults : ChirpConfig :=
  { primary_shortcut := PyVal.str "ctrl+shift"
    stt_backend := PyVal.str "parakeet"
    parakeet_model := PyVal.str "nemo-parakeet-tdt-0.6b-v3"
    parakeet_quantization := PyVal.none
    onnx_providers := PyVal.str "cpu"
    threads := PyVal.none
    language := PyVal.none
    word_overrides := PyVal.dict []
    whisper_prompt := PyVal.str ""
    paste_mode := PyVal.str "ctrl"
    clipboard_behavior := PyVal.bool true
    clipboard_clear_delay := PyVal.float (3/4)
    audio_feedback := PyVal.bool true
    start_sound_path := PyVal.none
    stop_sound_path := PyVal.none }

/-- DEFAULT_CONFIG (config_manager.py lines 57-73). -/
def DEFAULT_CONFIG : List (String × PyVal) :=
  [("primary_shortcut", PyVal.str "win+alt+d"),
   ("stt_backend", PyVal.str "parakeet"),
   ("parakeet_model", PyVal.str "nemo-parakeet-tdt-0.6b-v3"),
   ("parakeet_quantization", PyVal.none),
   ("onnx_providers", PyVal.str "cpu"),
   ("threads", PyVal.none),
   ("language", PyVal.none),
   ("word_overrides", PyVal.dict []),
   ("whisper_prompt", PyVal.str ""),
   ("paste_mode", PyVal.str "ctrl"),
   ("clipboard_behavior", PyVal.bool true),
   ("clipboard_clear_delay", PyVal.float (3/4)),
   ("audio_feedback", PyVal.bool true),
   ("start_sound_path", PyVal.none),
   ("stop_sound_path", PyVal.none)]

/-- ChirpConfig.from_dict (config_manager.py lines 36-49): merge over
DEFAULT_CONFIG, normalize a few string fields, then invoke the dataclass
constructor, which fails only on an unexpected keyword (there is no
range validation anywhere on this path). -/
def ChirpConfig.from_dict (data : List (String × PyVal)) :
    Except String ChirpConfig :=
  let merged := dictMerge DEFAULT_CONFIG data
  match (dictLookup merged "word_overrides").getD (PyVal.dict []) with
  | PyVal.dict entries =>
    let m1 := dictSet merged "word_overrides"
      (PyVal.dict (entries.map (fun p => (lowerString p.1, PyVal.str (pyStr p.2)))))
    let m2 := dictSet m1 "primary_shortcut"
      (PyVal.str (pyStrLower ((dictLookup m1 "primary_shortcut").getD PyVal.none)))
    let m3 := dictSet m2 "paste_mode"
      (PyVal.str (pyStrLower ((dictLookup m2 "paste_mode").getD PyVal.none)))
    let m4 := dictSet m3 "onnx_providers"
      (PyVal.str (pyStrLower ((dictLookup m3 "onnx_providers").getD PyVal.none)))
    let quant := (dictLookup m4 "parakeet_quantization").getD PyVal.none
    let m5 := dictSet m4 "parakeet_quantization"
      (if pyTruthy quant then PyVal.str (pyStrLower quant) else PyVal.none)
    let lang := (dictLookup m5 "language").getD PyVal.none
    let m6 := dictSet m5 "language"
      (if pyTruthy lang then PyVal.str (pyStr lang) else PyVal.none)
    match m6.find? (fun p => !(chirpConfigFields.contains p.1)) with
    | some p => Except.error ("TypeError: unexpected keyword argument " ++ p.1)
    | Option.none => Except.ok
        { primary_shortcut :=
            (dictLookup m6 "primary_shortcut").getD chirpConfigDataclassDefaults.primary_shortcut
          stt_backend :=
            (dictLookup m6 "stt_backend").getD chirpConfigDataclassDefaults.stt_backend
          parakeet_model :=
            (dictLookup m6 "parakeet_model").getD chirpConfigDataclassDefaults.parakeet_model
          parakeet_quantization :=
            (dictLookup m6 "parakeet_quantization").getD chirpConfigDataclassDefaults.parakeet_quantization
          onnx_providers :=
            (dictLookup m6 "onnx_providers").getD chirpConfigDataclassDefaults.onnx_providers
          threads :=
            (dictLookup m6 "threads").getD chirpConfigDataclassDefaults.threads
          language :=
            (dictLookup m6 "language").getD chirpConfigDataclassDefaults.language
          word_overrides :=
            (dictLookup m6 "word_overrides").getD chirpConfigDataclassDefaults.word_overrides
          whisper_prompt :=
            (dictLookup m6 "whisper_prompt").getD chirpConfigDataclassDefaults.whisper_prompt
          paste_mode :=
            (dictLookup m6 "paste_mode").getD chirpConfigDataclassDefaults.paste_mode
          clipboard_behavior :=
            (dictLookup m6 "clipboard_behavior").getD chirpConfigDataclassDefaults.clipboard_behavior
          clipboard_clear_delay :=
            (dictLookup m6 "clipboard_clear_delay").getD chirpConfigDataclassDefaults.clipboard_clear_delay
          audio_feedback :=
            (dictLookup m6 "audio_feedback").getD chirpConfigDataclassDefaults.audio_feedback
          start_sound_path :=
            (dictLookup m6 "start_sound_path").getD chirpConfigDataclassDefaults.start_sound_path
          stop_sound_path :=
            (dictLookup m6 "stop_sound_path").getD chirpConfigDataclassDefaults.stop_sound_path }
  | _ => Except.error "AttributeError: word_overrides has no items method"

/-- TextInjector.__init__ (text_injector.py line 82): the clipboard clear
delay is silently clamped to at least 0.1 seconds, never rejected. -/
def textInjectorClipboardClearDelay (clipboard_clear_delay : Rat) : Rat :=
  max (1/10 : Rat) clipboard_clear_delay

/-- The mutable state of ParakeetManager (parakeet_manager.py lines
28-55): idle-unload timeout, last-access wall-clock time, the loaded
engine instance if any, and whether the idle monitor thread was started.
All reads and writes of these fields happen under the single instance
lock, so each embedded operation is one atomic step. -/
structure ParakeetManager where
  timeout : Rat
  last_access : Rat
  model : Option Unit
  monitor_started : Bool

/-- ParakeetManager.__init__ (parakeet_manager.py lines 28-55): records
the timeout, stamps last access, loads the model synchronously (raising
ModelNotPreparedError when the model assets are absent, before the
monitor is considered), and starts the idle monitor thread only when the
timeout is positive. -/
def ParakeetManager.init (timeout now : Rat) (assetsPresent : Bool) :
    Except String ParakeetManager :=
  if assetsPresent then
    Except.ok
      { timeout := timeout
        last_access := now
        model := some ()
        monitor_started := decide (0 < timeout) }
  else Except.error "ModelNotPreparedError: model not found - run chirp-setup"

/-- ParakeetManager.ensure_loaded (parakeet_manager.py lines 78-83):
under the lock, reload the model when it is absent; a missing asset
raises ModelNotPreparedError out of the call. -/
def ParakeetManager.ensure_loaded (st : ParakeetManager) (assetsPresent : Bool) :
    Except String ParakeetManager :=
  match st.model with
  | some _ => Except.ok st
  | Option.none =>
    if assetsPresent then Except.ok { st with model := some () }
    else Except.error "ModelNotPreparedError: model not found - run chirp-setup"

/-- Observable events of one ParakeetManager.transcribe call, in program
order: the last-access timestamp write, the ensure_loaded acquire, and
the recognize call on the engine. -/
inductive PMEvent where
  | touchTimestamp
  | acquireModel
  | recognize
  deriving DecidableEq

/-- ParakeetManager.transcribe (parakeet_manager.py lines 132-148):
stamps last access under the lock, acquires the engine via
ensure_loaded, returns the empty string on empty audio, otherwise runs
recognize.  The returned trace lists the events in the order the code
performs them; note the timestamp is written once, at the top. -/
def ParakeetManager.transcribe (st : ParakeetManager) (now : Rat)
    (assetsPresent : Bool) (audioSize : Nat) (recognizeText : String) :
    ParakeetManager × Except String String × List PMEvent :=
  let st1 := { st with last_access := now }
  match st1.ensure_loaded assetsPresent with
  | Except.error e =>
    (st1, Except.error e, [PMEvent.touchTimestamp, PMEvent.acquireModel])
  | Except.ok st2 =>
    if audioSize = 0 then
      (st2, Except.ok "", [PMEvent.touchTimestamp, PMEvent.acquireModel])
    else
      (st2, Except.ok recognizeText,
        [PMEvent.touchTimestamp, PMEvent.acquireModel, PMEvent.recognize])

/-- Number of timestamp updates occurring strictly after the recognize
call completed, in a transcribe event trace. -/
def touchesAfterCompletion (tr : List PMEvent) : Nat :=
  ((tr.dropWhile (fun e => !(e == PMEvent.recognize))).drop 1).count
    PMEvent.touchTimestamp

/-- The idle check of ParakeetManager._monitor_loop (parakeet_manager.py
lines 60-65), evaluated under the lock at wall-clock time now: model
present, positive timeout, and idle longer than the timeout. -/
def ParakeetManager.should_unload (st : ParakeetManager) (now : Rat) : Bool :=
  st.model.isSome && decide (0 < st.timeout)
    && decide (st.timeout < now - st.last_access)

/-- ParakeetManager._unload_model (parakeet_manager.py lines 69-76):
re-acquires the lock and re-checks the idle duration at that instant;
only when the model is present and still idle past the timeout is it
dropped.  The check and the unload are one atomic step under the lock. -/
def ParakeetManager.unload_model (st : ParakeetManager) (now : Rat) :
    ParakeetManager :=
  if st.model.isSome && decide (st.timeout < now - st.last_access) then
    { st with model := Option.none }
  else st

/-- One iteration of ParakeetManager._monitor_loop (parakeet_manager.py
lines 57-67) with the racing window made explicit: the loop evaluates
should_unload under the lock at time t1, releases the lock, a transcribe
call may stamp last_access at touchAt in between, and _unload_model then
re-checks at time t2 under the lock before unloading. -/
def ParakeetManager.monitor_iteration (st : ParakeetManager) (t1 : Rat)
    (touchAt : Option Rat) (t2 : Rat) : ParakeetManager :=
  if st.should_unload t1 then
    let st' := match touchAt with
      | some ta => { st with last_access := ta }
      | Option.none => st
    st'.unload_model t2
  else st

/-- The operations that can reach a ParakeetManager after construction
(its public methods plus the monitor iterations; _unload_model is only
ever invoked from the monitor loop). -/
inductive PMOp where
  | transcribe (now : Rat) (assetsPresent : Bool) (audioSize : Nat) (text : String)
  | ensureLoaded (assetsPresent : Bool)
  | monitorIteration (t1 : Rat) (touchAt : Option Rat) (t2 : Rat)

/-- State reached after one operation (a failed reload leaves the state
the exception left behind). -/
def ParakeetManager.step (st : ParakeetManager) (op : PMOp) : ParakeetManager :=
  match op with
  | PMOp.transcribe now a s t => (st.transcribe now a s t).1
  | PMOp.ensureLoaded a =>
    match st.ensure_loaded a with
    | Except.ok st' => st'
    | Except.error _ => st
  | PMOp.monitorIteration t1 ta t2 => st.monitor_iteration t1 ta t2

/-- State reached after a sequence of operations. -/
def ParakeetManager.run (st : ParakeetManager) (ops : List PMOp) : ParakeetManager :=
  ops.foldl ParakeetManager.step st

/-- The orchestrator state of ChirpApp relevant to the toggle path
(main.py lines 71-73): the recording flag and whether the max-duration
stop timer is armed.  toggle_recording holds the single lock for the
whole transition, so each embedded operation is one atomic step. -/
structure AppState where
  recording : Bool
  stop_timer_armed : Bool
  deriving DecidableEq

/-- ChirpApp state right after construction (main.py lines 71-73). -/
def appInitialState : AppState :=
  { recording := false, stop_timer_armed := false }

/-- Observable side effects of the toggle path (main.py lines 99-131):
log lines with their severity, feedback sounds, capture device calls,
timer arming and cancelling, and job submission to the single-worker
executor. -/
inductive AppEvent where
  | logDebug (msg : String)
  | logInfo (msg : String)
  | logError (msg : String)
  | playStart
  | playStop
  | playError
  | captureAcquired
  | captureStartError
  | captureStop (samples : Nat)
  | armTimer (duration : Rat)
  | cancelTimer
  | submitJob (samples : Nat)
  deriving DecidableEq

/-- ChirpApp._start_recording (main.py lines 99-115): try to start the
capture device; on failure log, play the error sound and return with the
state unchanged; on success set recording, play start feedback and arm
the max-duration timer when the configured duration is positive.
maxRecordingDuration and captureStartOk stand for the configured value
and the capture collaborator outcome. -/
def startRecording (maxRecordingDuration : Rat) (captureStartOk : Bool)
    (st : AppState) : AppState × List AppEvent :=
  if !captureStartOk then
    (st, [AppEvent.logDebug "Starting audio capture", AppEvent.captureStartError,
          AppEvent.logError "Audio capture start failed", AppEvent.playError])
  else
    let evs := [AppEvent.logDebug "Starting audio capture", AppEvent.captureAcquired,
                AppEvent.playStart, AppEvent.logInfo "Recording started"]
    if 0 < maxRecordingDuration then
      ({ recording := true, stop_timer_armed := true },
        evs ++ [AppEvent.armTimer maxRecordingDuration])
    else ({ st with recording := true }, evs)

/-- ChirpApp._stop_recording (main.py lines 121-131): cancel the stop
timer if armed, stop capture taking the waveform snapshot, clear the
recording flag, play stop feedback and submit the transcription job.
samples stands for the size of the snapshot the capture device returns. -/
def stopRecording (samples : Nat) (st : AppState) : AppState × List AppEvent :=
  let cancelEvs := if st.stop_timer_armed then [AppEvent.cancelTimer] else []
  ({ recording := false, stop_timer_armed := false },
    cancelEvs ++
      [AppEvent.logDebug "Stopping audio capture", AppEvent.captureStop samples,
       AppEvent.playStop, AppEvent.logInfo "Recording stopped",
       AppEvent.submitJob samples])

/-- ChirpApp.toggle_recording (main.py lines 92-97): under the lock,
start when idle and stop when recording. -/
def toggleRecording (maxRecordingDuration : Rat) (captureStartOk : Bool)
    (samples : Nat) (st : AppState) : AppState × List AppEvent :=
  if !st.recording then startRecording maxRecordingDuration captureStartOk st
  else stopRecording samples st

/-- ChirpApp._handle_timeout (main.py lines 117-119): log, then invoke
the generic toggle_recording, whatever the current state is. -/
def handleTimeout (maxRecordingDuration : Rat) (captureStartOk : Bool)
    (samples : Nat) (st : AppState) : AppState × List AppEvent :=
  let r := toggleRecording maxRecordingDuration captureStartOk samples st
  (r.1, AppEvent.logInfo "Maximum recording duration reached." :: r.2)

/-- Number of job submissions in an event trace. -/
def countSubmitJobs (evs : List AppEvent) : Nat :=
  (evs.filter (fun e => match e with
    | AppEvent.submitJob _ => true
    | _ => false)).length

/-- One transcription job as the worker sees it (main.py line 131 and
parakeet_manager.py lines 132-148): the snapshot size, whether the model
assets are present if a reload is needed, the wall-clock time of the
call, and the text the engine would recognize. -/
structure JobSpec where
  now : Rat
  assetsPresent : Bool
  waveformSize : Nat
  recognizeText : String

/-- Outcome of one worker job (main.py lines 133-150). -/
inductive JobResult where
  | skippedEmpty
  | failed (e : String)
  | suppressedBlank
  | injected (text : String)
  deriving DecidableEq

/-- Observable side effects of one worker job (main.py lines 133-150):
log lines with their severity, the error sound, and the hand-off to the
text injector. -/
inductive TWEvent where
  | logDebug (msg : String)
  | logInfo (msg : String)
  | logWarning (msg : String)
  | logError (msg : String)
  | playError
  | injectText (text : String)
  deriving DecidableEq

/-- Whether a worker event is a log line visible at the default (INFO)
logger level, i.e. severity INFO or above. -/
def visibleByDefault : TWEvent → Bool
  | TWEvent.logDebug _ => false
  | TWEvent.logInfo _ => true
  | TWEvent.logWarning _ => true
  | TWEvent.logError _ => true
  | TWEvent.playError => false
  | TWEvent.injectText _ => false

/-- Python str.strip(): drop leading and trailing whitespace. -/
def pyStrip (s : String) : String :=
  String.mk
    (((s.data.dropWhile Char.isWhitespace).reverse.dropWhile Char.isWhitespace).reverse)

/-- ChirpApp._transcribe_and_inject (main.py lines 133-150): warn and
stop on an empty waveform; call ParakeetManager.transcribe catching any
exception into a per-job failure with the error sound; suppress
injection of blank text; otherwise log the text at INFO and inject it.
The timing figures of the debug line are elided (they contain no
transcript text). -/
def transcribeAndInject (st : ParakeetManager) (j : JobSpec) :
    ParakeetManager × JobResult × List TWEvent :=
  if j.waveformSize = 0 then
    (st, JobResult.skippedEmpty, [TWEvent.logWarning "No audio samples captured"])
  else
    let r := st.transcribe j.now j.assetsPresent j.waveformSize j.recognizeText
    match r.2.1 with
    | Except.error e =>
      (r.1, JobResult.failed e,
        [TWEvent.logError ("Transcription failed: " ++ e), TWEvent.playError])
    | Except.ok text =>
      if pyStrip text = "" then
        (r.1, JobResult.suppressedBlank,
          [TWEvent.logDebug "Transcription finished",
           TWEvent.logInfo "Transcription empty; skipping paste"])
      else
        (r.1, JobResult.injected text,
          [TWEvent.logDebug "Transcription finished",
           TWEvent.logInfo ("Transcription: " ++ text),
           TWEvent.injectText text])

/-- The single-concurrency transcription worker (main.py line 74, a
max_workers=1 executor): jobs run one at a time in submission order;
each produces a result and events, threading the ParakeetManager state. -/
def workerRun (st : ParakeetManager) (jobs : List JobSpec) :
    ParakeetManager × List (JobResult × List TWEvent) :=
  match jobs with
  | [] => (st, [])
  | j :: rest =>
    let r := transcribeAndInject st j
    let rr := workerRun r.1 rest
    (rr.1, (r.2.1, r.2.2) :: rr.2)

/-- Attribute access on a ChirpConfig instance: the dataclass is
declared with slots=True (config_manager.py line 18), so exactly the
declared fields resolve and every other name raises AttributeError. -/
def ChirpConfig.getattr (c : ChirpConfig) (name : String) : Option PyVal :=
  if name = "primary_shortcut" then some c.primary_shortcut
  else if name = "stt_backend" then some c.stt_backend
  else if name = "parakeet_model" then some c.parakeet_model
  else if name = "parakeet_quantization" then some c.parakeet_quantization
  else if name = "onnx_providers" then some c.onnx_providers
  else if name = "threads" then some c.threads
  else if name = "language" then some c.language
  else if name = "word_overrides" then some c.word_overrides
  else if name = "whisper_prompt" then some c.whisper_prompt
  else if name = "paste_mode" then some c.paste_mode
  else if name = "clipboard_behavior" then some c.clipboard_behavior
  else if name = "clipboard_clear_delay" then some c.clipboard_clear_delay
  else if name = "audio_feedback" then some c.audio_feedback
  else if name = "start_sound_path" then some c.start_sound_path
  else if name = "stop_sound_path" then some c.stop_sound_path
  else Option.none

/-- The config attribute names ChirpApp.__init__ reads, in evaluation
order (main.py lines 28, 36-43, 47, 49-57, 61-69): the model_dir call,
the config summary debug line, the AudioFeedback flag, the
ParakeetManager keyword arguments (ending in model_timeout), then the
TextInjector keyword arguments. -/
def chirpAppInitConfigReads : List String :=
  ["parakeet_model", "parakeet_quantization",
   "parakeet_model", "parakeet_quantization", "onnx_providers", "threads",
   "paste_mode",
   "audio_feedback",
   "parakeet_model", "parakeet_quantization", "onnx_providers", "threads",
   "model_timeout",
   "paste_mode", "word_overrides", "post_processing", "clipboard_behavior",
   "clipboard_clear_delay"]

/-- Outcome of constructing ChirpApp (main.py lines 23-74): either an
AttributeError naming the first config attribute that fails to resolve,
or a constructed app on which run() may then register the hotkey. -/
inductive AppConstruction where
  | attrError (name : String)
  | constructed
  deriving DecidableEq

/-- ChirpApp.__init__ viewed through its config attribute reads: the
first read that fails to resolve on the slots dataclass raises
AttributeError and aborts construction; run() and therefore hotkey
registration are reachable only from a constructed app. -/
def chirpAppConstruct (c : ChirpConfig) : AppConstruction :=
  match chirpAppInitConfigReads.find? (fun n => (c.getattr n).isNone) with
  | some n => AppConstruction.attrError n
  | Option.none => AppConstruction.constructed

/-- Whether ChirpApp.run (main.py lines 76-82), which performs the
hotkey registration, is reachable for a given config. -/
def hotkeyRegistrationReachable (c : ChirpConfig) : Bool :=
  chirpAppConstruct c == AppConstruction.constructed

/-- C1: the claim says a configuration with threads=-1, or
clipboard-clear-delay=0, or max-recording-duration beyond the ceiling is
rejected with a field-specific error before the orchestrator starts, and
that in-range configurations are accepted.  The code has no validation:
from_dict accepts threads=-1 and clipboard_clear_delay=0 unchanged,
TextInjector silently clamps the delay instead of rejecting it, and a
max_recording_duration key fails only as an unexpected keyword even when
its value is in range. -/
theorem C1_out_of_range_config_accepted :
    ((ChirpConfig.from_dict [("threads", PyVal.int (-1))]).map (fun c => c.threads)
        = Except.ok (PyVal.int (-1)))
  ∧ ((ChirpConfig.from_dict [("clipboard_clear_delay", PyVal.float 0)]).map
        (fun c => c.clipboard_clear_delay) = Except.ok (PyVal.float 0))
  ∧ textInjectorClipboardClearDelay 0 = 1/10
  ∧ (ChirpConfig.from_dict [("max_recording_duration", PyVal.float 45)]).isOk = false :=
  ⟨rfl, rfl, max_eq_left (by norm_num), rfl⟩

/-- C2: for every ChirpConfig instance, constructing ChirpApp stops with
an AttributeError on model_timeout (the first of the attributes
model_timeout, post_processing, error_sound_path and
max_recording_duration that ChirpApp reads and the slots dataclass does
not declare), so hotkey registration in run() is never reached. -/
theorem C2_chirp_app_construction_raises (c : ChirpConfig) :
    chirpAppConstruct c = AppConstruction.attrError "model_timeout"
  ∧ hotkeyRegistrationReachable c = false
  ∧ (["model_timeout", "post_processing", "error_sound_path",
      "max_recording_duration"].all (fun n => (c.getattr n).isNone)) = true := by
  refine ⟨?_, ?_, ?_⟩ <;>
    simp [chirpAppConstruct, hotkeyRegistrationReachable, chirpAppInitConfigReads,
      ChirpConfig.getattr, List.find?]

/-- A ParakeetManager with the model loaded, used as concrete state in
several evaluations. -/
def loadedParakeet : ParakeetManager :=
  { timeout := 300, last_access := 0, model := some (), monitor_started := true }

/-- C3: the claim says transcribed text is never logged at INFO or
above.  The worker logs the full transcript at INFO
(main.py line 149) on every successful non-blank transcription: here the
concrete job text appears in an INFO line visible at the default level. -/
theorem C3_transcript_logged_at_info_by_default :
    (TWEvent.logInfo "Transcription: My secret password is hunter2"
        ∈ (transcribeAndInject loadedParakeet
            { now := 1, assetsPresent := true, waveformSize := 16000,
              recognizeText := "My secret password is hunter2" }).2.2)
  ∧ visibleByDefault
      (TWEvent.logInfo "Transcription: My secret password is hunter2") = true := by
  decide

/-- C4 counterexample: the claim says a successful transcription call
updates the last-access timestamp both before acquiring the engine and
again after the transcription completes.  On this concrete successful
call the event trace holds exactly one timestamp update, before the
acquire, and none after the recognize call completed. -/
theorem C4_counterexample_no_touch_after_completion :
    (loadedParakeet.transcribe 10 true 16000 "hello").2.1 = Except.ok "hello"
  ∧ (loadedParakeet.transcribe 10 true 16000 "hello").2.2
      = [PMEvent.touchTimestamp, PMEvent.acquireModel, PMEvent.recognize]
  ∧ touchesAfterCompletion ((loadedParakeet.transcribe 10 true 16000 "hello").2.2) = 0 :=
  ⟨rfl, rfl, rfl⟩

/-- C4 amended: every transcription call (successful or not) updates the
last-access timestamp exactly once, as its first action before acquiring
the engine instance, and never again after the transcription completes;
the resulting state carries the call time as last access. -/
theorem C4_amended_single_touch_before_acquire (st : ParakeetManager) (now : Rat)
    (assets : Bool) (size : Nat) (text : String) :
    ((st.transcribe now assets size text).2.2).head? = some PMEvent.touchTimestamp
  ∧ ((st.transcribe now assets size text).2.2).count PMEvent.touchTimestamp = 1
  ∧ touchesAfterCompletion ((st.transcribe now assets size text).2.2) = 0
  ∧ (st.transcribe now assets size text).1.last_access = now := by
  rcases st with ⟨t0, la, mo, ms⟩
  cases mo <;> cases assets <;> rcases Nat.eq_zero_or_pos size with hs | hs <;>
    simp_all [ParakeetManager.transcribe, ParakeetManager.ensure_loaded,
      touchesAfterCompletion, Nat.pos_iff_ne_zero]

/-- C5 counterexample: the claim says the handle is created empty and
the first access triggers the load.  Construction with the model assets
present returns a handle whose engine instance is already loaded. -/
theorem C5_counterexample_constructed_already_loaded :
    (ParakeetManager.init 300 0 true).map (fun st => st.model) = Except.ok (some ()) := by
  rfl

/-- C5 amended: the model handle loads the speech engine synchronously
during construction, and construction fails (ModelNotPreparedError,
fatal at startup) when the model assets are absent; after an idle
eviction the next access reloads synchronously via ensure_loaded, which
likewise fails when the assets are absent. -/
theorem C5_amended_eager_load_and_reload_on_access (timeout now : Rat)
    (evicted : ParakeetManager) (hev : evicted.model = Option.none) :
    ((ParakeetManager.init timeout now true).map (fun st => st.model)
        = Except.ok (some ()))
  ∧ ((ParakeetManager.init timeout now false).isOk = false)
  ∧ evicted.ensure_loaded true = Except.ok { evicted with model := some () }
  ∧ (evicted.ensure_loaded false).isOk = false := by
  refine ⟨rfl, rfl, ?_, ?_⟩ <;>
    simp [ParakeetManager.ensure_loaded, hev, Except.isOk, Except.toBool]

/-- C5 witness: the amended theorem applied to a concrete evicted
handle, which the next access reloads. -/
theorem C5_amended_witness :
    ({ timeout := 300, last_access := 5, model := Option.none,
        monitor_started := true } : ParakeetManager).ensure_loaded true
      = Except.ok ({ timeout := 300, last_access := 5, model := some (),
                     monitor_started := true } : ParakeetManager) :=
  (C5_amended_eager_load_and_reload_on_access 300 0
    { timeout := 300, last_access := 5, model := Option.none,
      monitor_started := true } rfl).2.2.1

/-- C6: _unload_model re-checks the idle duration under the lock at the
instant of unloading: a handle whose last access is within the timeout
is never unloaded, even when the monitor loop saw it idle at its earlier
check and a transcribe call stamped the timestamp in between; and
whenever the unload does clear the model, the idle duration strictly
exceeded the timeout at that instant. -/
theorem C6_unload_rechecks_idle_under_lock (t1 ta t2 : Rat) (st : ParakeetManager)
    (hfresh : t2 - ta ≤ st.timeout) :
    (st.monitor_iteration t1 (some ta) t2).model = st.model
  ∧ (∀ (now : Rat) (st' : ParakeetManager),
      now - st'.last_access ≤ st'.timeout → st'.unload_model now = st')
  ∧ (∀ (now : Rat) (st' : ParakeetManager),
      (st'.unload_model now).model = Option.none →
        st'.model = Option.none ∨ st'.timeout < now - st'.last_access) := by
  have hnoun : ∀ (now : Rat) (st' : ParakeetManager),
      now - st'.last_access ≤ st'.timeout → st'.unload_model now = st' := by
    intro now st' h
    unfold ParakeetManager.unload_model
    rw [if_neg]
    simp only [Bool.and_eq_true, decide_eq_true_eq, not_and]
    intro _
    exact not_lt.mpr h
  refine ⟨?_, hnoun, ?_⟩
  · unfold ParakeetManager.monitor_iteration
    split
    · have := hnoun t2 { st with last_access := ta } (by simpa using hfresh)
      rw [this]
    · rfl
  · intro now st' h
    unfold ParakeetManager.unload_model at h
    split at h
    · rename_i hc
      simp only [Bool.and_eq_true, decide_eq_true_eq] at hc
      exact Or.inr hc.2
    · exact Or.inl h

/-- C6 witness: the monitor saw the handle idle past the 300 second
timeout at its check, a transcribe touched the timestamp before
_unload_model ran, and the re-check under the lock keeps the model. -/
theorem C6_witness :
    (({ timeout := 300, last_access := 0, model := some (),
        monitor_started := true } : ParakeetManager).monitor_iteration
          400 (some 399) 400).model
      = ({ timeout := 300, last_access := 0, model := some (),
           monitor_started := true } : ParakeetManager).model :=
  (C6_unload_rechecks_idle_under_lock 400 399 400
    { timeout := 300, last_access := 0, model := some (),
      monitor_started := true } (by norm_num)).1

/-- One operation keeps the model loaded and the timeout unchanged when
the timeout is non-positive (the monitor check requires a positive
timeout, and the only unload sits behind that check). -/
theorem pm_step_keeps_model_when_no_eviction (st : ParakeetManager) (op : PMOp)
    (hto : st.timeout ≤ 0) (hm : st.model.isSome = true) :
    (st.step op).model.isSome = true ∧ (st.step op).timeout = st.timeout := by
  rcases hmm : st.model with _ | u
  · rw [hmm] at hm; simp at hm
  cases op with
  | transcribe now a s t =>
    simp only [ParakeetManager.step, ParakeetManager.transcribe,
      ParakeetManager.ensure_loaded, hmm]
    split <;> simp
  | ensureLoaded a =>
    simp [ParakeetManager.step, ParakeetManager.ensure_loaded, hmm]
  | monitorIteration t1 ta t2 =>
    have hfalse : st.should_unload t1 = false := by
      unfold ParakeetManager.should_unload
      have : decide (0 < st.timeout) = false := decide_eq_false (not_lt.mpr hto)
      simp [this]
    simp [ParakeetManager.step, ParakeetManager.monitor_iteration, hfalse, hmm]

/-- C7: with a non-positive idle-unload timeout, the monitor thread is
not started and in every state reachable from construction by any
sequence of transcribe, ensure_loaded and monitor-loop operations the
loaded engine instance is still present. -/
theorem C7_nonpositive_timeout_never_unloads (timeout now : Rat)
    (st0 : ParakeetManager) (ops : List PMOp) (hto : timeout ≤ 0)
    (hinit : ParakeetManager.init timeout now true = Except.ok st0) :
    (st0.run ops).model.isSome = true ∧ st0.monitor_started = false := by
  have h0 : st0.timeout = timeout ∧ st0.model.isSome = true
      ∧ st0.monitor_started = decide (0 < timeout) := by
    simp only [ParakeetManager.init, if_pos, Except.ok.injEq] at hinit
    rw [← hinit]
    exact ⟨rfl, rfl, rfl⟩
  refine ⟨?_, ?_⟩
  · have : ∀ (ops : List PMOp) (st : ParakeetManager),
        st.timeout ≤ 0 → st.model.isSome = true →
          (st.run ops).model.isSome = true := by
      intro ops
      induction ops with
      | nil => intro st _ hm; exact hm
      | cons op rest ih =>
        intro st hto' hm
        have hstep := pm_step_keeps_model_when_no_eviction st op hto' hm
        exact ih (st.step op) (hstep.2 ▸ hto') hstep.1
    exact this ops st0 (h0.1 ▸ hto) h0.2.1
  · rw [h0.2.2]
    exact decide_eq_false (not_lt.mpr hto)

/-- C7 witness: a handle constructed with timeout -1 still holds its
model after a monitor iteration and a transcribe call, and its monitor
thread was never started. -/
theorem C7_witness :
    ((({ timeout := -1, last_access := 0, model := some (),
         monitor_started := false } : ParakeetManager).run
        [PMOp.monitorIteration 100 Option.none 200,
         PMOp.transcribe 300 true 16000 "hi"]).model).isSome = true
  ∧ ({ timeout := -1, last_access := 0, model := some (),
       monitor_started := false } : ParakeetManager).monitor_started = false :=
  C7_nonpositive_timeout_never_unloads (-1) 0
    { timeout := -1, last_access := 0, model := some (), monitor_started := false }
    [PMOp.monitorIteration 100 Option.none 200,
     PMOp.transcribe 300 true 16000 "hi"]
    (by norm_num) (by norm_num [ParakeetManager.init])

/-- The C8 scenario: two toggle_recording invocations in sequence
starting from the freshly constructed (Idle) orchestrator state, with
the capture device starting successfully, returning the final state and
the concatenated event trace. -/
def toggleTwiceFromIdle (maxRecordingDuration : Rat) (samples : Nat) :
    AppState × List AppEvent :=
  let r1 := toggleRecording maxRecordingDuration true samples appInitialState
  let r2 := toggleRecording maxRecordingDuration true samples r1.1
  (r2.1, r1.2 ++ r2.2)

/-- C8: from Idle, two toggles (with the capture collaborator starting
successfully, the nominal path the property describes) produce exactly
one start-feedback, one stop-feedback and one submitted job, and leave
the state machine back in the initial Idle state, whatever the
configured max recording duration and whatever waveform the capture
returns. -/
theorem C8_toggle_twice_from_idle (maxRecordingDuration : Rat) (samples : Nat) :
    ((toggleTwiceFromIdle maxRecordingDuration samples).2.count AppEvent.playStart = 1)
  ∧ ((toggleTwiceFromIdle maxRecordingDuration samples).2.count AppEvent.playStop = 1)
  ∧ (countSubmitJobs ((toggleTwiceFromIdle maxRecordingDuration samples).2) = 1)
  ∧ (toggleTwiceFromIdle maxRecordingDuration samples).1 = appInitialState := by
  by_cases hd : 0 < maxRecordingDuration <;>
    simp [toggleTwiceFromIdle, toggleRecording, startRecording, stopRecording,
      appInitialState, countSubmitJobs, hd, List.count_cons, List.count_append]

/-- C9: an error inside one transcription job (here a model reload
failure surfacing from ParakeetManager.transcribe; the same catch covers
any inference error) is recorded as a failure result for that job alone,
the worker continues with the remaining jobs from the state the failing
job left, and every submitted job always receives exactly one result:
the worker loop never crashes. -/
theorem C9_job_errors_isolated (st : ParakeetManager) (j : JobSpec)
    (rest : List JobSpec) (e : String)
    (hfail : (transcribeAndInject st j).2.1 = JobResult.failed e) :
    ((workerRun st (j :: rest)).2.length = rest.length + 1)
  ∧ ((workerRun st (j :: rest)).2 =
      (JobResult.failed e, (transcribeAndInject st j).2.2)
        :: (workerRun (transcribeAndInject st j).1 rest).2)
  ∧ (∀ (st' : ParakeetManager) (jobs : List JobSpec),
      (workerRun st' jobs).2.length = jobs.length) := by
  have hlen : ∀ (jobs : List JobSpec) (st' : ParakeetManager),
      (workerRun st' jobs).2.length = jobs.length := by
    intro jobs
    induction jobs with
    | nil => intro st'; rfl
    | cons a as ih => intro st'; simp [workerRun, ih]
  refine ⟨?_, ?_, fun st' jobs => hlen jobs st'⟩
  · simp [workerRun, hlen]
  · simp only [workerRun, hfail]

/-- C9 witness: a job that fails to reload the evicted model yields a
failure result while the worker still processes the following job. -/
theorem C9_witness :
    (workerRun
      { timeout := 300, last_access := 0, model := Option.none,
        monitor_started := true }
      [{ now := 1, assetsPresent := false, waveformSize := 5, recognizeText := "x" },
       { now := 2, assetsPresent := true, waveformSize := 5,
         recognizeText := "ok" }]).2.length = 2 :=
  (C9_job_errors_isolated
    { timeout := 300, last_access := 0, model := Option.none,
      monitor_started := true }
    { now := 1, assetsPresent := false, waveformSize := 5, recognizeText := "x" }
    [{ now := 2, assetsPresent := true, waveformSize := 5, recognizeText := "ok" }]
    "ModelNotPreparedError: model not found - run chirp-setup" rfl).1

/-- C10: the max-duration timeout handler calls the generic
toggle_recording rather than a stop-only transition, so when it runs
while the state machine is Idle it starts a fresh recording session:
capture is acquired, start feedback plays, a new max-duration timer is
armed, and no stop or job submission happens. -/
theorem C10_timeout_handler_in_idle_starts_session (maxRecordingDuration : Rat)
    (samples : Nat) (st : AppState) (hidle : st.recording = false)
    (hdur : 0 < maxRecordingDuration) :
    (handleTimeout maxRecordingDuration true samples st).1.recording = true
  ∧ (handleTimeout maxRecordingDuration true samples st).1.stop_timer_armed = true
  ∧ (handleTimeout maxRecordingDuration true samples st).2 =
      [AppEvent.logInfo "Maximum recording duration reached.",
       AppEvent.logDebug "Starting audio capture", AppEvent.captureAcquired,
       AppEvent.playStart, AppEvent.logInfo "Recording started",
       AppEvent.armTimer maxRecordingDuration]
  ∧ countSubmitJobs ((handleTimeout maxRecordingDuration true samples st).2) = 0
  ∧ (handleTimeout maxRecordingDuration true samples st).2.count AppEvent.playStop = 0 := by
  simp [handleTimeout, toggleRecording, startRecording, hidle, hdur,
    countSubmitJobs, List.count_cons]

/-- C10 witness: the handler run in the Idle state with a 45 second
limit starts recording again. -/
theorem C10_witness :
    (handleTimeout 45 true 0 appInitialState).1.recording = true :=
  (C10_timeout_handler_in_idle_starts_session 45 0 appInitialState rfl
    (by norm_num)).1
